import Mathlib

/-!
# Verification of the API anomaly-detection service (`main.py`)

A shallow embedding of the behavioural core of `src/main.py`:

* the feature extractor `extract_features` (lines 95–135),
* the training operation `train_model` (lines 153–217), with the two
  external collaborators (scaling transform, scoring model) represented
  as opaque fitted/unfitted artifacts and sklearn's
  `train_test_split` size rule,
* the detection operation `detect_anomalies` (lines 219–274), with the
  external model's per-row outputs (binary prediction, continuous score)
  passed in as data,
* the persistence/load operation `load_model` (lines 296–312).

Machine reals (`float`) are modelled by `ℚ`, instants by integer epoch
seconds, Python exceptions by explicit outcome values, and the mutation
of the module-level globals `model`/`scaler`/`is_trained` by explicit
state passing in the exact order the Python statements execute.
-/

namespace AnomalyAPI

/-- One API log record (`class APILog`, `main.py` lines 57–68).
`timestamp` is modelled as epoch seconds. -/
structure APILog where
  timestamp : Int
  user_id : String
  endpoint : String
  method : String
  status_code : Int
  response_time : ℚ
  ip_address : String
  user_agent : String
  request_size : Option Int
  response_size : Option Int
deriving DecidableEq, Repr

/-- Python `log.timestamp.hour` for an epoch-seconds instant. -/
def hourOf (ts : Int) : Int := (ts % 86400) / 3600

/-- Python `log.timestamp.weekday()` (Monday = 0) for an epoch-seconds instant:
the epoch day was a Thursday (weekday 3). -/
def weekdayOf (ts : Int) : Int := (ts / 86400 + 3) % 7

/-- Numpy `np.mean` over a list of reals: undefined (NaN) on an empty list,
modelled as `none`. -/
def listMean (xs : List ℚ) : Option ℚ :=
  if xs.isEmpty then none else some (xs.sum / xs.length)

/-- Python `len([l for l in ls if l.status_code >= 400])`. -/
def errCount (ls : List APILog) : Nat :=
  (ls.filter (fun l => 400 ≤ l.status_code)).length

/-- Python `len(err)/len(ls) if ls else 0` — the guarded error-rate expression
used at `main.py` lines 115, 123 and 130. -/
def errRate (ls : List APILog) : ℚ :=
  if ls.isEmpty then 0 else (errCount ls : ℚ) / (ls.length : ℚ)

/-- Python `[l for l in logs if l.user_id == log.user_id]` (line 111). -/
def userLogsOf (logs : List APILog) (log : APILog) : List APILog :=
  logs.filter (fun l => l.user_id = log.user_id)

/-- Python `[l for l in logs if l.endpoint == log.endpoint]` (line 119). -/
def endpointLogsOf (logs : List APILog) (log : APILog) : List APILog :=
  logs.filter (fun l => l.endpoint = log.endpoint)

/-- Python `[l for l in logs if (log.timestamp - l.timestamp).total_seconds() < 3600]`
(line 127): the signed difference, not its absolute value. -/
def recentLogsOf (logs : List APILog) (log : APILog) : List APILog :=
  logs.filter (fun l => log.timestamp - l.timestamp < 3600)

/-- The `feature_dict` built for one record (`main.py` lines 101–131), as
an association list in insertion order.  The two `np.mean` entries are the
only ones whose value can be undefined (`none`), exactly as in the code,
where they are the only unguarded divisions. -/
def featureRow (logs : List APILog) (log : APILog) : List (String × Option ℚ) :=
  let user_logs := userLogsOf logs log
  let endpoint_logs := endpointLogsOf logs log
  let recent_logs := recentLogsOf logs log
  [("hour", some (hourOf log.timestamp : ℚ)),
   ("day_of_week", some (weekdayOf log.timestamp : ℚ)),
   ("status_code", some (log.status_code : ℚ)),
   ("response_time", some log.response_time),
   ("request_size", some ((log.request_size.getD 0 : ℤ) : ℚ)),
   ("response_size", some ((log.response_size.getD 0 : ℤ) : ℚ)),
   ("user_request_frequency", some (user_logs.length : ℚ)),
   ("user_avg_response_time", listMean (user_logs.map (fun l => l.response_time))),
   ("user_error_rate", some (errRate user_logs)),
   ("endpoint_frequency", some (endpoint_logs.length : ℚ)),
   ("endpoint_avg_response_time", listMean (endpoint_logs.map (fun l => l.response_time))),
   ("endpoint_error_rate", some (errRate endpoint_logs)),
   ("recent_requests", some (recent_logs.length : ℚ)),
   ("recent_error_rate", some (errRate recent_logs))]

/-- The fixed key set of every `feature_dict`, in insertion order. -/
def featureNames : List String :=
  ["hour", "day_of_week", "status_code", "response_time", "request_size",
   "response_size", "user_request_frequency", "user_avg_response_time",
   "user_error_rate", "endpoint_frequency", "endpoint_avg_response_time",
   "endpoint_error_rate", "recent_requests", "recent_error_rate"]

/-- The `for log in logs: features.append(...)` loop of `extract_features`
(lines 97–133): `all` is the whole batch the aggregates scan, `cur` the
records still to process. -/
def extractLoop (all : List APILog) : List APILog → List (List (String × Option ℚ))
  | [] => []
  | log :: rest => featureRow all log :: extractLoop all rest

/-- Function `extract_features(logs)` (`main.py` lines 95–135): one feature row per
input record, in input order. -/
def extract_features (logs : List APILog) : List (List (String × Option ℚ)) :=
  extractLoop logs logs

/-- The number of held-out rows chosen by
`sklearn.model_selection.train_test_split` for a float `test_size` `f`
(its documented size rule: `n_test = ceil(f * n)`, and with `train_size`
left unset, `n_train = n - n_test`).  `train_model` calls it at
`main.py` lines 169–173. -/
def n_test_rows (n : Nat) (f : ℚ) : Nat := (Int.ceil ((n : ℚ) * f)).toNat

/-- Call `train_test_split(rows, test_size=f, random_state=42)` as used at
`main.py` lines 169–173, returning `some (X_train, X_test)` on success.
sklearn raises a `ValueError` (modelled as `none`) when a float
`test_size` is outside `(0, 1)`, and — the case reachable from the
endpoint's default 0.2 — whenever the resulting training split would be
empty (`n − ⌈n·f⌉ = 0`, e.g. `n = 0` or `n = 1`).  The fixed seed makes
the selection a deterministic permutation of the rows; the particular
shuffling is irrelevant to the verified properties, so the held-out rows
are taken from the front, with sklearn's exact split sizes. -/
def train_test_split {α : Type} (rows : List α) (f : ℚ) :
    Option (List α × List α) :=
  if f ≤ 0 ∨ 1 ≤ f then none
  else
    let nt := n_test_rows rows.length f
    if rows.length ≤ nt then none
    else some (rows.drop nt, rows.take nt)

/-- A feature matrix: the rows `extract_features` produces. -/
abbrev Features := List (List (String × Option ℚ))

/-- The scaling-transform artifact held in the global `scaler`:
`StandardScaler()` is unfitted at construction (`main.py` line 176) and
becomes fitted to the training rows by `fit_transform` (line 177). -/
inductive ScalerV
  | unfitted
  | fitted (trainRows : Features)
deriving DecidableEq, Repr

/-- The scoring-model artifact held in the global `model`:
`IsolationForest(...)` is unfitted at construction (lines 181–185) and
becomes fitted by `model.fit` (line 186); the scaled matrix it is fit on
is identified by the underlying training rows. -/
inductive ModelV
  | unfitted
  | fitted (trainRows : Features)
deriving DecidableEq, Repr

/-- The module-level globals `model`, `scaler`, `is_trained`
(`main.py` lines 52–55); `none` models Python `None`. -/
structure ModelState where
  model : Option ModelV
  scaler : Option ScalerV
  is_trained : Bool
deriving DecidableEq, Repr

/-- The initial state (`model = None`, `scaler = None`,
`is_trained = False`). -/
def initialState : ModelState :=
  { model := none, scaler := none, is_trained := false }

/-- The statements of `train_model`'s `try` block at which an exception
can be raised: feature extraction (line 166), the split (lines 169–173),
`scaler.fit_transform` (line 177), `scaler.transform` (line 178),
`model.fit` (line 186), the evaluation calls (lines 189–194), and the
two `joblib.dump` persistence calls (lines 198, 199). -/
inductive TrainFail
  | atExtract
  | atSplit
  | atScaleFit
  | atScaleTransform
  | atModelFit
  | atEval
  | atPersistModel
  | atPersistScaler
deriving DecidableEq, Repr

/-- The HTTP-visible outcome of `train_model`: a success payload, or the
`HTTPException(500, "Training failed: ...")` raised at line 217. -/
inductive TrainOutcome
  | success
  | failure500
deriving DecidableEq, Repr

/-- Endpoint `train_model` (`main.py` lines 153–217) as a transition on the
global `ModelState`.  `failAt` injects an *environmental* failure
(memory, numerics, I/O) at one of the `try` block's statements; the
split's own deterministic `ValueError` (empty training split) is part of
`train_test_split` itself, and aborts the run before any global is
touched, so a late injected failure point is only reached on inputs
whose split actually succeeds.  The state updates happen exactly where
the Python statements rebind or mutate the globals:
`scaler = StandardScaler()` (line 176) before `fit_transform`
(line 177), `model = IsolationForest(...)` (line 181) before
`model.fit` (line 186), and `is_trained = True` only at line 201 after
both artifacts are persisted.  The `except` clause (lines 215–217)
converts any raise into a 500 failure, leaving the globals as the
already-executed statements left them. -/
def train_model (st : ModelState) (logs : List APILog) (test_size : ℚ)
    (failAt : Option TrainFail) : ModelState × TrainOutcome :=
  if failAt = some .atExtract then (st, .failure500) else
  if failAt = some .atSplit then (st, .failure500) else
  match train_test_split (extract_features logs) test_size with
  | none => (st, .failure500)
  | some (X_train, _X_test) =>
    let st1 : ModelState := { st with scaler := some .unfitted }
    if failAt = some .atScaleFit then (st1, .failure500) else
    let st2 : ModelState := { st1 with scaler := some (.fitted X_train) }
    if failAt = some .atScaleTransform then (st2, .failure500) else
    let st3 : ModelState := { st2 with model := some .unfitted }
    if failAt = some .atModelFit then (st3, .failure500) else
    let st4 : ModelState := { st3 with model := some (.fitted X_train) }
    if failAt = some .atEval then (st4, .failure500) else
    if failAt = some .atPersistModel then (st4, .failure500) else
    if failAt = some .atPersistScaler then (st4, .failure500) else
    ({ st4 with is_trained := true }, .success)

/-- The persistence directory as `load_model` sees it: whether each of
the two artifacts `models/isolation_forest.pkl` and `models/scaler.pkl`
exists (and if so its content), and whether its `joblib.load`
deserializes without raising. -/
structure Disk where
  modelArtifact : Option ModelV
  scalerArtifact : Option ScalerV
  modelLoadOk : Bool
  scalerLoadOk : Bool
deriving DecidableEq, Repr

/-- The HTTP-visible outcome of `load_model`: the success payload of
line 307, or an `HTTPException` with the given status code. -/
inductive LoadOutcome
  | ok
  | httpError (code : Nat)
deriving DecidableEq, Repr

/-- Endpoint `load_model` (`main.py` lines 296–312).  When both artifact paths
exist, `model` is rebound by its `joblib.load` (line 303) before the
scaler's load (line 304), and `is_trained` is set afterwards.  When one
is missing, line 309 raises `HTTPException(404, "No trained model found
on disk")` — but that raise sits inside the `try`, and FastAPI's
`HTTPException` is a subclass of `Exception`, so the `except Exception`
clause at line 310 catches it and line 312 re-raises it as
`HTTPException(500, "Model loading failed: 404: No trained model found
on disk")`.  Any deserialization failure is likewise surfaced as a
500. -/
def load_model (disk : Disk) (st : ModelState) : ModelState × LoadOutcome :=
  match disk.modelArtifact, disk.scalerArtifact with
  | some m, some s =>
    if disk.modelLoadOk then
      let st1 : ModelState := { st with model := some m }
      if disk.scalerLoadOk then
        ({ st1 with scaler := some s, is_trained := true }, .ok)
      else (st1, .httpError 500)
    else (st, .httpError 500)
  | _, _ => (st, .httpError 500)

/-- The severity expression of `main.py` line 257:
`"high" if score < -0.8 else "medium" if score < -0.5 else "low"`. -/
def severityOf (score : ℚ) : String :=
  if score < -(8/10 : ℚ) then "high"
  else if score < -(1/2 : ℚ) then "medium"
  else "low"

/-- One entry of the `anomalies` list (`main.py` lines 248–258). -/
structure AnomalyRecord where
  log_index : Nat
  timestamp : Int
  user_id : String
  endpoint : String
  method : String
  status_code : Int
  response_time : ℚ
  anomaly_score : ℚ
  severity : String
deriving DecidableEq, Repr

/-- The `anomaly_data` dict built at lines 248–258 for row `i`. -/
def mkAnomalyRecord (i : Nat) (log : APILog) (score : ℚ) : AnomalyRecord :=
  { log_index := i
    timestamp := log.timestamp
    user_id := log.user_id
    endpoint := log.endpoint
    method := log.method
    status_code := log.status_code
    response_time := log.response_time
    anomaly_score := score
    severity := severityOf score }

/-- The `for i, (log, prediction, score) in enumerate(zip(...))` loop of
lines 246–260: `zip` truncates to the shortest input, `i` counts from
the given start, and a row is appended iff `prediction == -1 and
score < threshold` (line 247). -/
def collectAnomalies (t : ℚ) :
    Nat → List APILog → List Int → List ℚ → List AnomalyRecord
  | _, [], _, _ => []
  | _, _ :: _, [], _ => []
  | _, _ :: _, _ :: _, [] => []
  | i, log :: ls, p :: ps, s :: ss =>
    if p = -1 ∧ s < t then
      mkAnomalyRecord i log s :: collectAnomalies t (i + 1) ls ps ss
    else collectAnomalies t (i + 1) ls ps ss

/-- The `AnomalyDetectionResponse` payload (`main.py` lines 75–81,
built at lines 264–270).  `model_confidence` is `np.mean(scores)`,
undefined (`none`) on an empty batch. -/
structure DetectResponse where
  anomalies : List AnomalyRecord
  total_logs : Nat
  anomaly_count : Nat
  anomaly_rate : ℚ
  model_confidence : Option ℚ
deriving DecidableEq, Repr

/-- The body of `detect_anomalies`'s `try` block (lines 230–270), given
the per-row outputs of the external scoring model on the scaled feature
matrix: `preds` from `model.predict` (+1 normal / −1 anomalous) and
`scores` from `model.decision_function`. -/
def detectRun (logs : List APILog) (preds : List Int) (scores : List ℚ)
    (threshold : ℚ) : DetectResponse :=
  let anomalies := collectAnomalies threshold 0 logs preds scores
  { anomalies := anomalies
    total_logs := logs.length
    anomaly_count := anomalies.length
    anomaly_rate :=
      if logs.isEmpty then 0 else (anomalies.length : ℚ) / (logs.length : ℚ)
    model_confidence := listMean scores }

/-- Endpoint `detect_anomalies` (`main.py` lines 219–274): the guard of lines
227–228 rejects an untrained state with HTTP 400 before any work;
otherwise the report is produced. -/
def detect_anomalies (st : ModelState) (logs : List APILog)
    (preds : List Int) (scores : List ℚ) (threshold : ℚ) :
    Except Nat DetectResponse :=
  if !st.is_trained ∨ st.model = none ∨ st.scaler = none then
    .error 400
  else
    .ok (detectRun logs preds scores threshold)

/-! ## Structural lemmas about the feature extractor -/

theorem extractLoop_eq_map (all : List APILog) :
    ∀ cur : List APILog, extractLoop all cur = cur.map (featureRow all)
  | [] => rfl
  | log :: rest => by rw [extractLoop, List.map_cons, extractLoop_eq_map all rest]

theorem extract_features_eq_map (logs : List APILog) :
    extract_features logs = logs.map (featureRow logs) :=
  extractLoop_eq_map logs logs

theorem mem_extract_features {logs : List APILog}
    {row : List (String × Option ℚ)} :
    row ∈ extract_features logs ↔ ∃ log ∈ logs, featureRow logs log = row := by
  rw [extract_features_eq_map, List.mem_map]

/-- A record of the batch is in its own per-user aggregate set. -/
theorem self_mem_userLogsOf {logs : List APILog} {log : APILog}
    (h : log ∈ logs) : log ∈ userLogsOf logs log := by
  simp [userLogsOf, List.mem_filter, h]

/-- A record of the batch is in its own per-endpoint aggregate set. -/
theorem self_mem_endpointLogsOf {logs : List APILog} {log : APILog}
    (h : log ∈ logs) : log ∈ endpointLogsOf logs log := by
  simp [endpointLogsOf, List.mem_filter, h]

/-- Lemma: `listMean` is defined on any nonempty list. -/
theorem listMean_isSome {xs : List ℚ} (h : xs ≠ []) : (listMean xs).isSome := by
  simp [listMean, List.isEmpty_iff, h]

/-- Every value of a feature row over a batch containing its record is
defined: the two unguarded `np.mean` aggregates are taken over sets that
contain the record itself, so they are never empty. -/
theorem featureRow_wellformed {logs : List APILog} {log : APILog}
    (h : log ∈ logs) :
    ∀ kv ∈ featureRow logs log, (Prod.snd kv).isSome = true := by
  have hu : userLogsOf logs log ≠ [] :=
    List.ne_nil_of_mem (self_mem_userLogsOf h)
  have he : endpointLogsOf logs log ≠ [] :=
    List.ne_nil_of_mem (self_mem_endpointLogsOf h)
  have hu' : (userLogsOf logs log).map (fun l => l.response_time) ≠ [] := by
    simpa using hu
  have he' : (endpointLogsOf logs log).map (fun l => l.response_time) ≠ [] := by
    simpa using he
  intro kv hkv
  simp only [featureRow, List.mem_cons, List.not_mem_nil, or_false] at hkv
  rcases hkv with h' | h' | h' | h' | h' | h' | h' | h' | h' | h' | h' | h' | h' | h' <;>
    subst h' <;> simp [listMean_isSome, hu', he']

/-- C9.  The feature extractor maps an ordered batch of `n` records to
exactly `n` feature rows, the `i`-th row derived from the `i`-th record;
no value of any produced row is undefined (the embedding's counterpart
of "never raises for well-formed input"); and the empty batch yields the
empty result. -/
theorem extract_features_contract (logs : List APILog) :
    (extract_features logs).length = logs.length
    ∧ (∀ i : Nat, (extract_features logs)[i]?
        = (logs[i]?).map (featureRow logs))
    ∧ (∀ row ∈ extract_features logs, ∀ kv ∈ row, (Prod.snd kv).isSome = true)
    ∧ extract_features ([] : List APILog) = [] := by
  refine ⟨?_, ?_, ?_, rfl⟩
  · rw [extract_features_eq_map]; exact List.length_map _ _
  · intro i; rw [extract_features_eq_map]; exact List.getElem?_map _ _ _
  · intro row hrow
    obtain ⟨log, hlog, rfl⟩ := mem_extract_features.mp hrow
    exact featureRow_wellformed hlog

/-- A concrete record used for witnesses and counterexamples. -/
def sampleLog : APILog :=
  { timestamp := 0
    user_id := "u1"
    endpoint := "/api/a"
    method := "GET"
    status_code := 200
    response_time := 1/10
    ip_address := "10.0.0.1"
    user_agent := "agent"
    request_size := none
    response_size := none }

/-- A second concrete record whose timestamp is far in the future of
`sampleLog`'s. -/
def futureLog : APILog :=
  { timestamp := 1000000
    user_id := "u2"
    endpoint := "/api/b"
    method := "POST"
    status_code := 500
    response_time := 5
    ip_address := "10.0.0.2"
    user_agent := "agent"
    request_size := some 10
    response_size := some 20 }

/-- C6 (amended).  Every feature row carries the same fixed key set, the
14 names of `featureNames`, in the same order. -/
theorem feature_schema (logs : List APILog) (row : List (String × Option ℚ))
    (hrow : row ∈ extract_features logs) :
    row.map Prod.fst = featureNames ∧ featureNames.length = 14 := by
  obtain ⟨log, _, rfl⟩ := mem_extract_features.mp hrow
  exact ⟨rfl, rfl⟩

theorem feature_schema_witness :
    (featureRow [sampleLog] sampleLog).map Prod.fst = featureNames
    ∧ featureNames.length = 14 :=
  feature_schema [sampleLog] (featureRow [sampleLog] sampleLog)
    (mem_extract_features.mpr ⟨sampleLog, List.mem_singleton.mpr rfl, rfl⟩)

/-- C6, counterexample to the claim as stated: the feature vector of a
one-record batch does not have 12 fields (it has 14). -/
theorem feature_schema_not_twelve :
    ¬ (∀ row ∈ extract_features [sampleLog], row.length = 12) := by
  intro h
  have h14 : (featureRow [sampleLog] sampleLog).length = 14 := rfl
  have h12 := h (featureRow [sampleLog] sampleLog)
    (mem_extract_features.mpr ⟨sampleLog, List.mem_singleton.mpr rfl, rfl⟩)
  rw [h14] at h12
  exact absurd h12 (by decide)

/-- C3.  The recency aggregates of a record's feature row are computed
over exactly the batch records whose signed timestamp difference from
the record is under 3600 seconds; in particular every record with a
later timestamp, by any amount, is in the window. -/
theorem recency_window (logs : List APILog) (log : APILog) :
    (featureRow logs log).lookup "recent_requests"
      = some (some ((recentLogsOf logs log).length : ℚ))
    ∧ (featureRow logs log).lookup "recent_error_rate"
      = some (some (errRate (recentLogsOf logs log)))
    ∧ (∀ l, l ∈ recentLogsOf logs log
        ↔ l ∈ logs ∧ log.timestamp - l.timestamp < 3600)
    ∧ (∀ l ∈ logs, log.timestamp ≤ l.timestamp → l ∈ recentLogsOf logs log) := by
  refine ⟨rfl, rfl, ?_, ?_⟩
  · intro l
    simp [recentLogsOf, List.mem_filter]
  · intro l hl hle
    simp only [recentLogsOf, List.mem_filter, decide_eq_true_eq]
    exact ⟨hl, by omega⟩

/-! ## The detection report -/

/-- Membership in the anomaly list built by the detection loop: a record
is collected exactly for the rows (within the zipped length) whose
prediction is −1 and whose score is under the threshold. -/
theorem mem_collectAnomalies {r : AnomalyRecord} {t : ℚ} :
    ∀ (i : Nat) (logs : List APILog) (preds : List Int) (scores : List ℚ),
      r ∈ collectAnomalies t i logs preds scores
      ↔ ∃ j log p s, logs[j]? = some log ∧ preds[j]? = some p
          ∧ scores[j]? = some s ∧ p = -1 ∧ s < t
          ∧ r = mkAnomalyRecord (i + j) log s := by
  intro i logs
  induction logs generalizing i with
  | nil => intro preds scores; simp [collectAnomalies]
  | cons log ls ih =>
    intro preds scores
    cases preds with
    | nil => simp [collectAnomalies]
    | cons p ps =>
      cases scores with
      | nil => simp [collectAnomalies]
      | cons s ss =>
        rw [collectAnomalies]
        by_cases h : p = -1 ∧ s < t
        · rw [if_pos h]
          constructor
          · intro hmem
            rcases List.mem_cons.mp hmem with rfl | hmem'
            · exact ⟨0, log, p, s, by simp, by simp, by simp, h.1, h.2, by
                rw [Nat.add_zero]⟩
            · obtain ⟨j, lg, p', s', h1, h2, h3, h4, h5, h6⟩ :=
                (ih (i + 1) ps ss).mp hmem'
              exact ⟨j + 1, lg, p', s', by simpa using h1, by simpa using h2,
                by simpa using h3, h4, h5, by rw [h6]; congr 1; omega⟩
          · rintro ⟨j, lg, p', s', h1, h2, h3, h4, h5, h6⟩
            cases j with
            | zero =>
              simp only [List.getElem?_cons_zero, Option.some.injEq] at h1 h2 h3
              subst h1; subst h2; subst h3
              exact List.mem_cons.mpr (Or.inl (by rw [h6, Nat.add_zero]))
            | succ j' =>
              simp only [List.getElem?_cons_succ] at h1 h2 h3
              refine List.mem_cons.mpr (Or.inr ((ih (i + 1) ps ss).mpr
                ⟨j', lg, p', s', h1, h2, h3, h4, h5, ?_⟩))
              rw [h6]; congr 1; omega
        · rw [if_neg h]
          rw [ih (i + 1) ps ss]
          constructor
          · rintro ⟨j, lg, p', s', h1, h2, h3, h4, h5, h6⟩
            exact ⟨j + 1, lg, p', s', by simpa using h1, by simpa using h2,
              by simpa using h3, h4, h5, by rw [h6]; congr 1; omega⟩
          · rintro ⟨j, lg, p', s', h1, h2, h3, h4, h5, h6⟩
            cases j with
            | zero =>
              simp only [List.getElem?_cons_zero, Option.some.injEq] at h1 h2 h3
              subst h1; subst h2; subst h3
              exact absurd ⟨h4, h5⟩ h
            | succ j' =>
              simp only [List.getElem?_cons_succ] at h1 h2 h3
              exact ⟨j', lg, p', s', h1, h2, h3, h4, h5, by rw [h6]; congr 1; omega⟩

/-- If the trained-state guard passes, the report is the pure loop's. -/
theorem detect_anomalies_ok {st : ModelState} {logs : List APILog}
    {preds : List Int} {scores : List ℚ} {t : ℚ} {resp : DetectResponse}
    (h : detect_anomalies st logs preds scores t = .ok resp) :
    resp = detectRun logs preds scores t := by
  unfold detect_anomalies at h
  split at h
  · exact absurd h (by simp)
  · simpa using h.symm

/-- The severity of every collected anomaly is the severity expression
applied to its own score. -/
theorem severity_of_mem {r : AnomalyRecord} {t : ℚ} {i : Nat}
    {logs : List APILog} {preds : List Int} {scores : List ℚ}
    (h : r ∈ collectAnomalies t i logs preds scores) :
    r.severity = severityOf r.anomaly_score ∧ r.anomaly_score < t := by
  obtain ⟨j, lg, p, s, _, _, _, _, h5, rfl⟩ :=
    (mem_collectAnomalies i logs preds scores).mp h
  exact ⟨rfl, h5⟩

/-- C2.  A row of the batch appears in the anomaly report if and only if
the scoring model classified it −1 (anomalous) **and** its score is
strictly below the threshold; neither condition alone suffices. -/
theorem anomaly_report_mem_iff (st : ModelState) (logs : List APILog)
    (preds : List Int) (scores : List ℚ) (t : ℚ) (resp : DetectResponse)
    (i : Nat) (log : APILog) (p : Int) (s : ℚ)
    (hok : detect_anomalies st logs preds scores t = .ok resp)
    (hlog : logs[i]? = some log) (hp : preds[i]? = some p)
    (hs : scores[i]? = some s) :
    (∃ r ∈ resp.anomalies, r.log_index = i) ↔ p = -1 ∧ s < t := by
  obtain rfl := detect_anomalies_ok hok
  show (∃ r ∈ collectAnomalies t 0 logs preds scores, r.log_index = i) ↔ _
  constructor
  · rintro ⟨r, hr, hidx⟩
    obtain ⟨j, lg, p', s', h1, h2, h3, h4, h5, rfl⟩ :=
      (mem_collectAnomalies 0 logs preds scores).mp hr
    have hj : j = i := by
      simpa [mkAnomalyRecord] using hidx
    subst hj
    rw [h2] at hp; rw [h3] at hs
    cases hp; cases hs
    exact ⟨h4, h5⟩
  · rintro ⟨hpred, hscore⟩
    refine ⟨mkAnomalyRecord i log s, ?_, rfl⟩
    exact (mem_collectAnomalies 0 logs preds scores).mpr
      ⟨i, log, p, s, hlog, hp, hs, hpred, hscore, by rw [Nat.zero_add]⟩

/-- A trained state for concrete witness computations. -/
def trainedState : ModelState :=
  { model := some (.fitted []), scaler := some (.fitted []),
    is_trained := true }

theorem anomaly_report_mem_iff_witness :
    (∃ r ∈ (detectRun [sampleLog] [-1] [-(9/10)] (-(1/2))).anomalies,
        r.log_index = 0)
    ↔ (-1 : Int) = -1 ∧ -(9/10 : ℚ) < -(1/2) :=
  anomaly_report_mem_iff trainedState [sampleLog] [-1] [-(9/10)] (-(1/2))
    (detectRun [sampleLog] [-1] [-(9/10)] (-(1/2))) 0 sampleLog (-1) (-(9/10))
    rfl rfl rfl rfl

/-- C7.  Every reported anomaly's severity tag follows its score: `high`
below −0.8, `medium` from −0.8 up to (not including) −0.5, and `low`
from −0.5 up (the row stays flagged). -/
theorem severity_classification (st : ModelState) (logs : List APILog)
    (preds : List Int) (scores : List ℚ) (t : ℚ) (resp : DetectResponse)
    (r : AnomalyRecord)
    (hok : detect_anomalies st logs preds scores t = .ok resp)
    (hr : r ∈ resp.anomalies) :
    (r.anomaly_score < -(8/10 : ℚ) → r.severity = "high")
    ∧ (-(8/10 : ℚ) ≤ r.anomaly_score → r.anomaly_score < -(1/2 : ℚ) →
        r.severity = "medium")
    ∧ (-(1/2 : ℚ) ≤ r.anomaly_score → r.severity = "low") := by
  rw [detect_anomalies_ok hok] at hr
  have hsev := (severity_of_mem hr).1
  refine ⟨fun h => ?_, fun h1 h2 => ?_, fun h => ?_⟩
  · rw [hsev, severityOf, if_pos h]
  · rw [hsev, severityOf, if_neg (by linarith), if_pos h2]
  · rw [hsev, severityOf, if_neg (by linarith), if_neg (by linarith)]

theorem severity_classification_witness :
    (mkAnomalyRecord 0 sampleLog (-(9/10))).severity = "high" :=
  (severity_classification trainedState [sampleLog] [-1] [-(9/10)] (-(1/2))
      (detectRun [sampleLog] [-1] [-(9/10)] (-(1/2)))
      (mkAnomalyRecord 0 sampleLog (-(9/10))) rfl
      ((mem_collectAnomalies 0 [sampleLog] [-1] [-(9/10)]).mpr
        ⟨0, sampleLog, -1, -(9/10), by simp, by simp, by simp, rfl,
          by norm_num, by rw [Nat.add_zero]⟩)).1 (by norm_num [mkAnomalyRecord])

/-- C8.  In every produced report, the anomaly rate is exactly the
anomaly count over the total count, and it is 0 on an empty batch. -/
theorem anomaly_rate_exact (st : ModelState) (logs : List APILog)
    (preds : List Int) (scores : List ℚ) (t : ℚ) (resp : DetectResponse)
    (hok : detect_anomalies st logs preds scores t = .ok resp) :
    resp.anomaly_rate = (resp.anomaly_count : ℚ) / (resp.total_logs : ℚ)
    ∧ (resp.total_logs = 0 → resp.anomaly_rate = 0) := by
  obtain rfl := detect_anomalies_ok hok
  unfold detectRun
  constructor
  · by_cases h : logs.isEmpty
    · have : logs = [] := List.isEmpty_iff.mp h
      subst this
      simp [collectAnomalies]
    · simp [h]
  · intro htot
    have : logs = [] := List.eq_nil_of_length_eq_zero (by simpa using htot)
    subst this
    simp

theorem anomaly_rate_exact_witness :
    (detectRun [] [] [] (-(1/2))).anomaly_rate = 0 :=
  (anomaly_rate_exact trainedState [] [] [] (-(1/2))
    (detectRun [] [] [] (-(1/2))) rfl).2 rfl

/-- C10.  With any threshold at or below the default −0.5, a reported
anomaly's severity is never `low`: its score is strictly below the
threshold, hence strictly below −0.5. -/
theorem no_low_severity_at_default (st : ModelState) (logs : List APILog)
    (preds : List Int) (scores : List ℚ) (t : ℚ) (resp : DetectResponse)
    (r : AnomalyRecord)
    (ht : t ≤ -(1/2 : ℚ))
    (hok : detect_anomalies st logs preds scores t = .ok resp)
    (hr : r ∈ resp.anomalies) :
    r.severity = "medium" ∨ r.severity = "high" := by
  rw [detect_anomalies_ok hok] at hr
  obtain ⟨hsev, hlt⟩ := severity_of_mem hr
  have hlt' : r.anomaly_score < -(1/2 : ℚ) := lt_of_lt_of_le hlt ht
  rw [hsev, severityOf]
  by_cases h8 : r.anomaly_score < -(8/10 : ℚ)
  · right; rw [if_pos h8]
  · left; rw [if_neg h8, if_pos hlt']

theorem no_low_severity_at_default_witness :
    (mkAnomalyRecord 0 sampleLog (-(6/10))).severity = "medium"
    ∨ (mkAnomalyRecord 0 sampleLog (-(6/10))).severity = "high" :=
  no_low_severity_at_default trainedState [sampleLog] [-1] [-(6/10)] (-(1/2))
    (detectRun [sampleLog] [-1] [-(6/10)] (-(1/2)))
    (mkAnomalyRecord 0 sampleLog (-(6/10))) (le_refl _) rfl
    ((mem_collectAnomalies 0 [sampleLog] [-1] [-(6/10)]).mpr
      ⟨0, sampleLog, -1, -(6/10), by simp, by simp, by simp, rfl,
        by norm_num, by rw [Nat.add_zero]⟩)

/-! ## The training split -/

/-- C5 (amended).  For a held-out fraction `f ∈ (0, 1)`: when the
training part would be nonempty (`⌈n·f⌉ < n`), the split succeeds and
partitions the rows into a training part of exactly `n − ⌈n·f⌉` rows
and a held-out part of exactly `⌈n·f⌉` rows (determinism is inherent:
the split is a function of the rows and the fraction alone); when the
training part would be empty (`n ≤ ⌈n·f⌉`, e.g. `n ≤ 1`), the split
raises sklearn's `ValueError` and partitions nothing. -/
theorem train_split_sizes {α : Type} (rows : List α) (f : ℚ)
    (hf : 0 < f ∧ f < 1) :
    (n_test_rows rows.length f < rows.length →
      ∃ tr te, train_test_split rows f = some (tr, te)
        ∧ tr.length = rows.length - n_test_rows rows.length f
        ∧ te.length = n_test_rows rows.length f
        ∧ te ++ tr = rows)
    ∧ (rows.length ≤ n_test_rows rows.length f →
        train_test_split rows f = none) := by
  have hguard : ¬(f ≤ 0 ∨ 1 ≤ f) := by
    rw [not_or, not_le, not_le]
    exact hf
  constructor
  · intro hlt
    refine ⟨rows.drop (n_test_rows rows.length f),
      rows.take (n_test_rows rows.length f), ?_,
      List.length_drop _ _, ?_, List.take_append_drop _ _⟩
    · show train_test_split rows f = _
      rw [train_test_split, if_neg hguard]
      exact if_neg (not_le.mpr hlt)
    · rw [List.length_take, min_eq_left (le_of_lt hlt)]
  · intro hle
    rw [train_test_split, if_neg hguard]
    exact if_pos hle

theorem train_split_sizes_witness :
    ∃ tr te, train_test_split (List.range 10) (1/5) = some (tr, te)
      ∧ tr.length = (List.range 10).length
          - n_test_rows (List.range 10).length (1/5)
      ∧ te.length = n_test_rows (List.range 10).length (1/5)
      ∧ te ++ tr = List.range 10 :=
  (train_split_sizes (List.range 10) (1/5) (by norm_num)).1 (by
    rw [n_test_rows, List.length_range]
    have hc : ⌈((10 : ℕ) : ℚ) * (1/5)⌉ = (2 : ℤ) := by
      rw [Int.ceil_eq_iff]
      norm_num
    rw [hc]
    norm_num)

/-- The training-split size as §4.2 step 2 of the spec words it:
`round(n·(1−f))`.  Stated only for comparison: the code delegates to
sklearn's `train_test_split`, whose documented rule is
`n_test = ceil(n·f)`, `n_train = n − n_test`. -/
def spec_train_size (n : Nat) (f : ℚ) : ℤ := round ((n : ℚ) * (1 - f))

/-- C5, counterexample to the claim as stated: with 10 rows and
`f = 0.13` the split succeeds (the training part is nonempty), and the
code's training split has `10 − ⌈1.3⌉ = 8` rows, not `round(8.7) = 9`. -/
theorem split_size_not_round :
    (train_test_split (List.range 10) (13/100)).map
        (fun p => (p.1.length : ℤ))
      ≠ some (spec_train_size 10 (13/100)) := by
  have hnt : n_test_rows (List.range 10).length (13/100) = 2 := by
    rw [n_test_rows, List.length_range]
    have hc : ⌈((10 : ℕ) : ℚ) * (13/100)⌉ = (2 : ℤ) := by
      rw [Int.ceil_eq_iff]
      norm_num
    rw [hc]
    rfl
  have h1 : train_test_split (List.range 10) (13/100)
      = some ((List.range 10).drop 2, (List.range 10).take 2) := by
    rw [train_test_split, if_neg (by norm_num)]
    show (if (List.range 10).length ≤ n_test_rows (List.range 10).length (13/100)
        then none else _) = _
    rw [hnt, if_neg (by simp)]
  have h2 : spec_train_size 10 (13/100) = 9 := by
    rw [spec_train_size, round_eq]
    norm_num
  rw [h1, h2]
  simp

/-! ## The training operation's failure frame -/

theorem train_model_early_fail (st : ModelState) (logs : List APILog) (f : ℚ)
    (failAt : Option TrainFail)
    (h : failAt = some .atExtract ∨ failAt = some .atSplit ∨
      train_test_split (extract_features logs) f = none) :
    train_model st logs f failAt = (st, .failure500) := by
  rcases h with rfl | rfl | h
  · simp [train_model]
  · simp [train_model]
  · rw [train_model, h]
    simp

theorem train_model_inject_fail (st : ModelState) (logs : List APILog) (f : ℚ)
    (fp : TrainFail) :
    (train_model st logs f (some fp)).2 = .failure500 := by
  rcases hsp : train_test_split (extract_features logs) f with _ | ⟨a, b⟩ <;>
    cases fp <;> simp [train_model, hsp]

theorem train_model_fail_keeps_flag (st : ModelState) (logs : List APILog)
    (f : ℚ) (failAt : Option TrainFail)
    (h : (train_model st logs f failAt).2 = .failure500) :
    (train_model st logs f failAt).1.is_trained = st.is_trained := by
  rcases hsp : train_test_split (extract_features logs) f with _ | ⟨a, b⟩ <;>
    rcases failAt with _ | fp
  · simp [train_model, hsp]
  · cases fp <;> simp [train_model, hsp]
  · simp [train_model, hsp] at h
  · cases fp <;> simp [train_model, hsp]

/-- C1 (amended).  A failure at feature extraction or in the split —
whether injected, or the split's own deterministic `ValueError` on an
empty training part — leaves the whole `ModelState` unchanged; every
failure is surfaced as the 500 training failure and leaves `is_trained`
unchanged; but a failure from the scaling step on finds `scaler` (and,
from the model-construction step on, `model`) already overwritten. -/
theorem train_failure_frame (st : ModelState) (logs : List APILog) (f : ℚ)
    (failAt : Option TrainFail) :
    ((failAt = some .atExtract ∨ failAt = some .atSplit ∨
        train_test_split (extract_features logs) f = none) →
      train_model st logs f failAt = (st, .failure500))
    ∧ (failAt ≠ none → (train_model st logs f failAt).2 = .failure500)
    ∧ ((train_model st logs f failAt).2 = .failure500 →
      (train_model st logs f failAt).1.is_trained = st.is_trained) :=
  ⟨train_model_early_fail st logs f failAt,
   fun hne =>
     match failAt, hne with
     | some fp, _ => train_model_inject_fail st logs f fp,
   train_model_fail_keeps_flag st logs f failAt⟩

theorem train_failure_frame_witness :
    train_model initialState [sampleLog] (1/5) (some .atExtract)
      = (initialState, .failure500) :=
  (train_failure_frame initialState [sampleLog] (1/5) (some .atExtract)).1
    (Or.inl rfl)

/-- A previously trained state with distinguishable artifacts. -/
def priorFeatures : Features := [[("prior", some 1)]]

/-- A `ModelState` holding a model and scaler from an earlier training
run. -/
def preTrainedState : ModelState :=
  { model := some (.fitted priorFeatures)
    scaler := some (.fitted priorFeatures)
    is_trained := true }

/-- C1, counterexample to the claim as stated, on a realizable trace: a
two-record batch with the default held-out fraction splits successfully
(training part of one row), so execution reaches the persistence step;
a `joblib.dump` failure there reports the 500 training failure, yet the
`ModelState` is no longer what it was — the old scaler and model have
already been overwritten by the freshly fit artifacts. -/
theorem train_failure_mutates :
    (train_model preTrainedState [sampleLog, futureLog] (1/5)
        (some .atPersistModel)).2 = .failure500
    ∧ (train_model preTrainedState [sampleLog, futureLog] (1/5)
        (some .atPersistModel)).1 ≠ preTrainedState := by
  have hl : (extract_features [sampleLog, futureLog]).length = 2 := rfl
  have hnt : n_test_rows (extract_features [sampleLog, futureLog]).length
      (1/5) = 1 := by
    rw [hl, n_test_rows]
    have hc : ⌈((2 : ℕ) : ℚ) * (1/5)⌉ = (1 : ℤ) := by
      rw [Int.ceil_eq_iff]
      norm_num
    rw [hc]
    rfl
  have hsp : train_test_split (extract_features [sampleLog, futureLog]) (1/5)
      = some ([featureRow [sampleLog, futureLog] futureLog],
              [featureRow [sampleLog, futureLog] sampleLog]) := by
    rw [train_test_split, if_neg (by norm_num)]
    show (if (extract_features [sampleLog, futureLog]).length
          ≤ n_test_rows (extract_features [sampleLog, futureLog]).length (1/5)
        then none
        else some ((extract_features [sampleLog, futureLog]).drop
              (n_test_rows (extract_features [sampleLog, futureLog]).length (1/5)),
            (extract_features [sampleLog, futureLog]).take
              (n_test_rows (extract_features [sampleLog, futureLog]).length (1/5))))
      = _
    rw [hnt, hl, if_neg (by norm_num)]
    rfl
  have hrun : train_model preTrainedState [sampleLog, futureLog] (1/5)
      (some .atPersistModel)
      = ({ preTrainedState with
            scaler := some
              (.fitted [featureRow [sampleLog, futureLog] futureLog])
            model := some
              (.fitted [featureRow [sampleLog, futureLog] futureLog]) },
         .failure500) := by
    rw [train_model, hsp]
    simp
  refine ⟨by rw [hrun], ?_⟩
  rw [hrun]
  intro hcontra
  have hm := congrArg ModelState.model hcontra
  simp [preTrainedState, priorFeatures, featureRow] at hm

/-! ## The load operation -/

/-- C4.  When either persisted artifact is missing, `load_model` leaves
the state unchanged but surfaces HTTP **500**, not the 404 the spec
(and the repository's own test suite) promise: the
`HTTPException(404, "No trained model found on disk")` raised inside
the `try` block is itself an `Exception`, so the blanket `except`
clause catches it and re-raises it with status 500. -/
theorem load_missing_artifact_500 (disk : Disk) (st : ModelState)
    (h : disk.modelArtifact = none ∨ disk.scalerArtifact = none) :
    load_model disk st = (st, .httpError 500) := by
  obtain ⟨ma, sa, mo, so⟩ := disk
  cases ma <;> cases sa <;> simp_all [load_model]

/-- A disk with no persisted artifacts. -/
def emptyDisk : Disk :=
  { modelArtifact := none, scalerArtifact := none,
    modelLoadOk := true, scalerLoadOk := true }

theorem load_missing_artifact_500_witness :
    load_model emptyDisk initialState = (initialState, .httpError 500) :=
  load_missing_artifact_500 emptyDisk initialState (Or.inl rfl)

end AnomalyAPI
